import Mathlib

/-!
Verification of the Session and Storage Isolation Subsystem of the incog
repository: a shallow embedding of the account store, session store,
context-switch coordinator, key derivation, encrypted field codec, cookie
options, trpc middleware and notification helper, with theorems settling
the specification claims.
-/

namespace Incog

/-- Error taxonomy of the system (spec section 7 and the TRPC error codes
used throughout the source). -/
inductive AppError where
  | notFound
  | forbidden
  | unauthorized
  | conflict
  | decryptionFailed
  | badRequest
  | internalServerError
  deriving DecidableEq, Repr

/-- A trpc-level error: a stable code plus a message, as thrown by
TRPCError in the source. -/
structure TrpcError where
  code : AppError
  message : String
  deriving DecidableEq, Repr

/-! ## trpc middleware (src/unnamed/part_001 lines 1054-1066, messages and
the null-user behaviour of adminProcedure pinned by
src/server/_core/trpc.test.ts) -/

/-- A user record as seen by the trpc context (only the fields the
middleware reads). -/
structure User where
  id : Nat
  role : String
  deriving DecidableEq, Repr

/-- The trpc request context: an optional authenticated user. -/
structure TrpcContext where
  user : Option User
  deriving DecidableEq, Repr

/-- Message thrown by adminProcedure, from shared const NOT_ADMIN_ERR_MSG
as pinned by src/unnamed/part_000 line 36. -/
def NOT_ADMIN_ERR_MSG : String := "You do not have required permission"

/-- Message thrown by protectedProcedure for a missing user; the exact
literal of UNAUTHED_ERR_MSG is not pinned anywhere under src, no claim
depends on it. -/
def UNAUTHED_ERR_MSG : String := "Unauthorized"

/-- protectedProcedure (part_001 lines 1054-1059): throws UNAUTHORIZED when
the context has no user, otherwise runs the wrapped operation. -/
def runProtectedProcedure {α : Type} (ctx : TrpcContext)
    (handler : TrpcContext → α) : Except TrpcError α :=
  match ctx.user with
  | none => .error ⟨.unauthorized, UNAUTHED_ERR_MSG⟩
  | some _ => .ok (handler ctx)

/-- adminProcedure: throws FORBIDDEN with the not-admin message unless the
context user has role admin, otherwise runs the wrapped operation. The
role check is part_001 lines 1061-1066; the FORBIDDEN (not UNAUTHORIZED)
result for a missing user and the attached message are pinned by
src/server/_core/trpc.test.ts lines 41-53 (the trpc.ts module itself is
not under src). -/
def runAdminProcedure {α : Type} (ctx : TrpcContext)
    (handler : TrpcContext → α) : Except TrpcError α :=
  match ctx.user with
  | none => .error ⟨.forbidden, NOT_ADMIN_ERR_MSG⟩
  | some u =>
    if u.role ≠ "admin" then .error ⟨.forbidden, NOT_ADMIN_ERR_MSG⟩
    else .ok (handler ctx)

/-! ## auth.me (behaviour pinned by src/server/auth.me.test.ts; the router
module is not under src) -/

/-- Modelled from the spec: the auth.me procedure is not under src (only
src/server/auth.me.test.ts is); per that test it is a public query that
returns the user object stored in the request context, and null when the
context has no user, without throwing. -/
def authMe (ctx : TrpcContext) : Except TrpcError (Option User) :=
  .ok ctx.user

/-! ## Session cookie options (behaviour pinned field by field by
src/server/_core/cookies.test.ts; the cookies module is not under src) -/

/-- The x-forwarded-proto header of a request: absent, a single string, or
an array of strings. -/
inductive HeaderValue where
  | missing
  | str (s : String)
  | arr (l : List String)
  deriving DecidableEq, Repr

/-- The part of an incoming request read by getSessionCookieOptions. -/
structure Req where
  protocol : String
  xForwardedProto : HeaderValue
  deriving DecidableEq, Repr

/-- The cookie options record returned by getSessionCookieOptions. -/
structure CookieOptions where
  httpOnly : Bool
  path : String
  sameSite : String
  secure : Bool
  deriving DecidableEq, Repr

/-- The comma-separated protocol entries carried by an x-forwarded-proto
header value: a string is split on commas, an array is split element-wise
and flattened, a missing header yields no entries. -/
def forwardedEntries (h : HeaderValue) : List String :=
  match h with
  | .missing => []
  | .str s => s.splitOn ","
  | .arr l => (l.map (fun s => s.splitOn ",")).flatten

/-- Modelled from the spec: the getSessionCookieOptions implementation is
not under src (only src/server/_core/cookies.test.ts is); that test pins
every field of the result: httpOnly true, path slash, sameSite the string
none, and secure exactly when the protocol is https or the
x-forwarded-proto header contains https after comma-splitting, trimming
and lowercasing. -/
def getSessionCookieOptions (req : Req) : CookieOptions :=
  { httpOnly := true
    path := "/"
    sameSite := "none"
    secure := req.protocol == "https"
      || (forwardedEntries req.xForwardedProto).any
           (fun p => p.trim.toLower == "https") }

/-- The claim-side reading of the secure condition: the request protocol is
https, or some entry of the comma-split x-forwarded-proto header equals
https after trimming whitespace and lowercasing. -/
def requestIsHttps (req : Req) : Prop :=
  req.protocol = "https" ∨
    ∃ e ∈ forwardedEntries req.xForwardedProto, e.trim.toLower = "https"

/-! ## notifyOwner (behaviour pinned by
src/server/_core/notification.test.ts; the notification module is not
under src) -/

/-- The javascript String.prototype.trim: drop whitespace from both ends,
modelled structurally over the character list so that it evaluates inside
the kernel. -/
def jsTrim (s : String) : String :=
  ⟨((s.data.dropWhile Char.isWhitespace).reverse.dropWhile
      Char.isWhitespace).reverse⟩

/-- A notification payload: title and content. -/
structure NotificationPayload where
  title : String
  content : String
  deriving DecidableEq, Repr

/-- The environment read by notifyOwner: the notification service URL and
API key, either of which may be unset. -/
structure Env where
  forgeApiUrl : Option String
  forgeApiKey : Option String
  deriving DecidableEq, Repr

/-- The outcome of the HTTP fetch performed by notifyOwner: a response
with an ok flag, or a rejected fetch call. -/
inductive FetchOutcome where
  | success (ok : Bool)
  | networkError
  deriving DecidableEq, Repr

/-- The request notifyOwner sends: the service endpoint URL and the
trimmed title and content placed in the JSON body. -/
structure SentRequest where
  url : String
  title : String
  content : String
  deriving DecidableEq, Repr

/-- Modelled from the spec: the notifyOwner implementation is not under
src (only src/server/_core/notification.test.ts is); that test pins the
behaviour embedded here: trim title and content, reject empty or
over-long fields with BAD_REQUEST, reject missing service URL or API key
with INTERNAL_SERVER_ERROR, otherwise post the trimmed fields to the
SendNotification endpoint and return true exactly when the response is
ok, false when it is non-ok or the fetch rejects, never throwing past
validation. The second component of the result is the outcome; the first
records the request that was issued, none when no request was made. -/
def notifyOwner (env : Env) (fetchResult : FetchOutcome)
    (p : NotificationPayload) : Except TrpcError (Option SentRequest × Bool) :=
  let title := jsTrim p.title
  let content := jsTrim p.content
  if title.length = 0 then
    .error ⟨.badRequest, "Notification title is required."⟩
  else if content.length = 0 then
    .error ⟨.badRequest, "Notification content is required."⟩
  else if title.length > 1200 then
    .error ⟨.badRequest, "Notification title must be at most 1200 characters."⟩
  else if content.length > 20000 then
    .error ⟨.badRequest, "Notification content must be at most 20000 characters."⟩
  else
    match env.forgeApiUrl with
    | none => .error ⟨.internalServerError, "Notification service URL is not configured."⟩
    | some url =>
      match env.forgeApiKey with
      | none => .error ⟨.internalServerError, "Notification service API key is not configured."⟩
      | some _ =>
        let req : SentRequest :=
          ⟨url ++ "/webdevtoken.v1.WebDevService/SendNotification", title, content⟩
        match fetchResult with
        | .success ok => .ok (some req, ok)
        | .networkError => .ok (some req, false)

/-! ## Base64 (the btoa and atob calls of encryptData and decryptData in
src/unnamed/part_001 lines 1085-1117, modelled concretely over byte
lists) -/

/-- The standard base64 alphabet. -/
def b64Alphabet : List Char :=
  ['A', 'B', 'C', 'D', 'E', 'F', 'G', 'H', 'I', 'J', 'K', 'L', 'M',
   'N', 'O', 'P', 'Q', 'R', 'S', 'T', 'U', 'V', 'W', 'X', 'Y', 'Z',
   'a', 'b', 'c', 'd', 'e', 'f', 'g', 'h', 'i', 'j', 'k', 'l', 'm',
   'n', 'o', 'p', 'q', 'r', 's', 't', 'u', 'v', 'w', 'x', 'y', 'z',
   '0', '1', '2', '3', '4', '5', '6', '7', '8', '9', '+', '/']

/-- The base64 character for a sextet value. -/
def sextetChar (n : Nat) : Char := b64Alphabet.getD n 'A'

/-- The sextet value of a base64 character, none for a character outside
the alphabet. -/
def decodeChar (c : Char) : Option Nat :=
  let i := b64Alphabet.indexOf c
  if i < 64 then some i else none

/-- Base64 encoding of a byte list (the btoa call applied to the combined
IV and ciphertext bytes). -/
def base64Encode : List Nat → List Char
  | [] => []
  | [a] =>
    [sextetChar (a / 4), sextetChar (a % 4 * 16), '=', '=']
  | [a, b] =>
    [sextetChar (a / 4), sextetChar (a % 4 * 16 + b / 16),
     sextetChar (b % 16 * 4), '=']
  | a :: b :: c :: rest =>
    sextetChar (a / 4) :: sextetChar (a % 4 * 16 + b / 16) ::
    sextetChar (b % 16 * 4 + c / 64) :: sextetChar (c % 64) ::
    base64Encode rest

/-- Base64 decoding of a character list back to bytes (the atob call),
none on malformed input. -/
def base64Decode : List Char → Option (List Nat)
  | [] => some []
  | c1 :: c2 :: c3 :: c4 :: rest => do
    let s1 ← decodeChar c1
    let s2 ← decodeChar c2
    if c3 = '=' then
      if c4 = '=' ∧ rest = [] then pure [s1 * 4 + s2 / 16] else none
    else do
      let s3 ← decodeChar c3
      if c4 = '=' then
        if rest = [] then pure [s1 * 4 + s2 / 16, s2 % 16 * 16 + s3 / 4]
        else none
      else do
        let s4 ← decodeChar c4
        let tail ← base64Decode rest
        pure ((s1 * 4 + s2 / 16) :: (s2 % 16 * 16 + s3 / 4) ::
              (s3 % 4 * 64 + s4) :: tail)
  | _ => none

/-! ## Encrypted field codec (src/unnamed/part_001 lines 1085-1117) -/

/-- The AES-256-GCM primitive behind crypto.subtle, abstracted: enc takes
IV, key and plaintext bytes to ciphertext-plus-tag bytes; dec takes IV,
key and ciphertext bytes to plaintext bytes, none on authentication-tag
mismatch (the rejected promise of crypto.subtle.decrypt). -/
structure AEAD where
  enc : List Nat → List Nat → List Nat → List Nat
  dec : List Nat → List Nat → List Nat → Option (List Nat)

/-- encryptData (part_001 lines 1085-1100): generate a 12-byte IV (here a
parameter standing for the random choice), encrypt, prepend the IV and
base64-encode the combined bytes. -/
def encryptData (A : AEAD) (iv key plaintext : List Nat) : List Char :=
  base64Encode (iv ++ A.enc iv key plaintext)

/-- decryptData (part_001 lines 1102-1117): base64-decode, split off the
first 12 bytes as IV, decrypt the rest; any failure surfaces as
DecryptionFailed, distinct from NotFound. -/
def decryptData (A : AEAD) (key : List Nat) (ciphertext : List Char) :
    Except AppError (List Nat) :=
  match base64Decode ciphertext with
  | none => .error .decryptionFailed
  | some combined =>
    match A.dec (combined.take 12) key (combined.drop 12) with
    | none => .error .decryptionFailed
    | some p => .ok p

/-- A toy authenticated cipher used to exercise the codec theorems on
concrete inputs: the ciphertext records the key length and key followed
by the plaintext, and decryption checks the recorded key. -/
def toyAead : AEAD :=
  { enc := fun _ k p => k.length :: (k ++ p)
    dec := fun _ k c =>
      match c with
      | [] => none
      | n :: rest =>
        if n = k.length ∧ rest.take k.length = k
        then some (rest.drop k.length) else none }

/-! ## Key derivation (src/unnamed/part_002 lines 420-438) -/

/-- The PBKDF2 salt of deriveAccountKey: the template literal joining the
user id and account id with a colon (the user id reaches the literal
already rendered as its decimal string). -/
def pbkdf2Salt (userId accountId : String) : String :=
  userId ++ ":" ++ accountId

/-- deriveAccountKey (part_002 lines 420-438): PBKDF2 over the master key
with salt userId colon accountId and 100000 iterations; the PBKDF2
primitive and the master key and derived key types are abstracted as
parameters — the derivation is a pure function of them. -/
def deriveAccountKey {μ κ : Type} (P : μ → String → Nat → κ) (mk : μ)
    (userId accountId : String) : κ :=
  P mk (pbkdf2Salt userId accountId) 100000

/-! ## Data model: durable rows and the database state -/

/-- An account row (the accounts table): name and description are stored
encrypted (base64 character lists produced by encryptData). -/
structure AccountRow where
  id : String
  userId : String
  name : List Char
  description : Option (List Char)
  isProtected : Bool
  proxyConfigId : Option String
  deriving DecidableEq, Repr

/-- A session row (the sessions table). Times are milliseconds. -/
structure SessionRow where
  id : String
  userId : String
  accountId : String
  createdAt : Nat
  expiresAt : Nat
  lastActivityAt : Nat
  deriving DecidableEq, Repr

/-- A session-scoped storage row (the sessionCookies, sessionCache and
sessionStorage tables; per-kind attributes beyond key and value are
elided). -/
structure StorageRow where
  sessionId : String
  key : String
  value : String
  deriving DecidableEq, Repr

/-- A proxy configuration row (only the fields the switch path reads). -/
structure ProxyRow where
  id : String
  userId : String
  deriving DecidableEq, Repr

/-- A browser tab row (only the fields loadAccountContext reads). -/
structure TabRow where
  id : String
  accountId : String
  isActive : Bool
  deriving DecidableEq, Repr

/-- The durable store state: the tables touched by the embedded
operations. -/
structure Db where
  accounts : List AccountRow
  sessions : List SessionRow
  sessionCookies : List StorageRow
  sessionCache : List StorageRow
  sessionStorage : List StorageRow
  proxyConfigs : List ProxyRow
  browserTabs : List TabRow
  deriving DecidableEq, Repr

/-- The in-memory session context (part_001 lines 1908-1921): the session
row fields plus the ephemeral cookie, cache and storage maps. -/
structure SessionCtx where
  sessionId : String
  userId : String
  accountId : String
  createdAt : Nat
  expiresAt : Nat
  lastActivityAt : Nat
  cookies : List (String × String)
  cache : List (String × String)
  storage : List (String × String)
  deriving DecidableEq, Repr

/-! ## Session store (src/unnamed/part_001 lines 1938-2081) -/

/-- createSession (part_001 lines 1938-1973): a fresh session bound to the
user and account, expiring 24 hours after now, inserted into the sessions
table; the generated UUID is the freshId parameter; the in-memory maps
start empty. Client metadata fields are elided. -/
def createSession (now : Nat) (freshId : String) (userId accountId : String)
    (db : Db) : SessionCtx × Db :=
  let row : SessionRow := ⟨freshId, userId, accountId, now, now + 86400000, now⟩
  (⟨freshId, userId, accountId, now, now + 86400000, now, [], [], []⟩,
   { db with sessions := db.sessions ++ [row] })

/-- validateSession (part_001 lines 1979-2019): look the session up; if
absent return null; if its expiry has passed delete it and return null;
otherwise update its last-activity time and return the context with fresh
empty maps. -/
def validateSession (now : Nat) (db : Db) (sessionId : String) :
    Option SessionCtx × Db :=
  match (db.sessions.filter (fun s => s.id == sessionId)).head? with
  | none => (none, db)
  | some s =>
    if s.expiresAt < now then
      (none, { db with sessions := db.sessions.filter (fun r => r.id != sessionId) })
    else
      let touched := db.sessions.map
        (fun r => if r.id == sessionId then { r with lastActivityAt := now } else r)
      (some ⟨s.id, s.userId, s.accountId, s.createdAt, s.expiresAt, now, [], [], []⟩,
       { db with sessions := touched })

/-- cleanupSession (part_001 lines 2027-2081): if the session exists,
delete its cookie, cache and storage rows and then the session row
itself; a no-op when the session is already gone. -/
def cleanupSession (db : Db) (sessionId : String) : Db :=
  match (db.sessions.filter (fun s => s.id == sessionId)).head? with
  | none => db
  | some _ =>
    { db with
      sessionCookies := db.sessionCookies.filter (fun r => r.sessionId != sessionId)
      sessionCache := db.sessionCache.filter (fun r => r.sessionId != sessionId)
      sessionStorage := db.sessionStorage.filter (fun r => r.sessionId != sessionId)
      sessions := db.sessions.filter (fun s => s.id != sessionId) }

/-- saveSessionContext (part_001 lines 2232-2270): insert every ephemeral
cookie, cache and storage entry of the context into the corresponding
session-scoped table. -/
def saveSessionContext (db : Db) (ctx : SessionCtx) : Db :=
  { db with
    sessionCookies := db.sessionCookies ++
      ctx.cookies.map (fun kv => StorageRow.mk ctx.sessionId kv.1 kv.2)
    sessionCache := db.sessionCache ++
      ctx.cache.map (fun kv => StorageRow.mk ctx.sessionId kv.1 kv.2)
    sessionStorage := db.sessionStorage ++
      ctx.storage.map (fun kv => StorageRow.mk ctx.sessionId kv.1 kv.2) }

/-! ## Account store (src/unnamed/part_001 lines 1854-1877 and 2364-2381) -/

/-- An account with its encrypted fields decrypted to byte lists (the
value getAccount returns). -/
structure DecryptedAccount where
  id : String
  userId : String
  name : List Nat
  description : Option (List Nat)
  isProtected : Bool
  proxyConfigId : Option String
  deriving DecidableEq, Repr

/-- getAccount (part_001 lines 1854-1877): select the account scoped by
both id and owning user id, failing with the not-found error when the
filtered query is empty; then derive the account key and decrypt name and
description. -/
def getAccount {μ : Type} (A : AEAD) (P : μ → String → Nat → List Nat)
    (mk : μ) (db : Db) (userId accountId : String) :
    Except AppError DecryptedAccount :=
  match (db.accounts.filter
      (fun r => r.id == accountId && r.userId == userId)).head? with
  | none => .error .notFound
  | some row =>
    let key := deriveAccountKey P mk userId accountId
    match decryptData A key row.name with
    | .error e => .error e
    | .ok name =>
      match row.description with
      | none => .ok ⟨row.id, row.userId, name, none, row.isProtected, row.proxyConfigId⟩
      | some d =>
        match decryptData A key d with
        | .error e => .error e
        | .ok desc =>
          .ok ⟨row.id, row.userId, name, some desc, row.isProtected, row.proxyConfigId⟩

/-- deleteAccount (part_001 lines 2364-2381): verify the caller owns the
account via the id-and-user filtered query, failing with the not-found
error otherwise; then delete the account tabs and the account row. -/
def deleteAccount (db : Db) (userId accountId : String) : Except AppError Db :=
  match (db.accounts.filter
      (fun r => r.id == accountId && r.userId == userId)).head? with
  | none => .error .notFound
  | some _ =>
    .ok { db with
          browserTabs := db.browserTabs.filter (fun t => t.accountId != accountId)
          accounts := db.accounts.filter (fun r => r.id != accountId) }

/-- Modelled from the spec: the account.list implementation is not under
src (only client-side calls are); section 4.3 of the spec says every
operation implicitly scopes by userID, so list returns exactly the
accounts owned by the caller. -/
def listAccounts (db : Db) (userId : String) : List AccountRow :=
  db.accounts.filter (fun r => r.userId == userId)

/-- Modelled from the spec: the account.update implementation is not
under src; section 4.3 of the spec says update scopes by userID and an
account owned by a different user fails with NotFound, so the patch is
applied only after the same id-and-user ownership check the other store
operations perform. -/
def updateAccount (db : Db) (userId accountId : String)
    (patch : AccountRow → AccountRow) : Except AppError Db :=
  match (db.accounts.filter
      (fun r => r.id == accountId && r.userId == userId)).head? with
  | none => .error .notFound
  | some _ =>
    let patched := db.accounts.map
      (fun r => if r.id == accountId then patch r else r)
    .ok { db with accounts := patched }

/-! ## Context switch coordinator (src/unnamed/part_001 lines 2117-2224) -/

/-- The account context loadAccountContext materialises. -/
structure AccountContext where
  accountId : String
  account : AccountRow
  proxyConfig : Option ProxyRow
  tabs : List TabRow
  activeTab : Option TabRow
  deriving DecidableEq, Repr

/-- loadAccountContext (part_001 lines 2182-2224): select the account by
id alone, failing with the not-found error when absent; resolve its proxy
configuration when referenced; collect the account tabs and the active
one. -/
def loadAccountContext (db : Db) (accountId : String) :
    Except AppError AccountContext :=
  match (db.accounts.filter (fun r => r.id == accountId)).head? with
  | none => .error .notFound
  | some account =>
    let proxyConfig :=
      match account.proxyConfigId with
      | none => none
      | some pid => (db.proxyConfigs.filter (fun p => p.id == pid)).head?
    let tabs := db.browserTabs.filter (fun t => t.accountId == accountId)
    .ok ⟨accountId, account, proxyConfig, tabs, tabs.find? (fun t => t.isActive)⟩

/-- The value the switch mutation returns. -/
structure SwitchResult where
  success : Bool
  accountId : String
  sessionId : String
  deriving DecidableEq, Repr

/-- The authenticated request context the switch mutation reads. -/
structure Ctx where
  userId : String
  sessionId : String
  deriving DecidableEq, Repr

/-- accountSwitch (part_001 lines 2117-2175): the account.switch mutation.
The input schema carries only the account id — there is no verification
token field — and the mutation never reads the isProtected flag. It
checks ownership via the id-and-user filtered query (NOT_FOUND when
empty), validates and saves the current session context, cleans the
current session up, creates the new session, loads the target account
context and returns success. The generated session UUID is the freshId
parameter and now is the clock reading. -/
def accountSwitch (now : Nat) (freshId : String) (db : Db) (ctx : Ctx)
    (accountId : String) : Except TrpcError (SwitchResult × Db) :=
  match (db.accounts.filter
      (fun r => r.id == accountId && r.userId == ctx.userId)).head? with
  | none => .error ⟨.notFound, "Account not found"⟩
  | some _ =>
    let step1 := validateSession now db ctx.sessionId
    let currentSession := step1.1
    let db1 := step1.2
    let db2 :=
      match currentSession with
      | some s => saveSessionContext db1 s
      | none => db1
    let db3 :=
      match currentSession with
      | some s => cleanupSession db2 s.sessionId
      | none => db2
    let step2 := createSession now freshId ctx.userId accountId db3
    let newSession := step2.1
    let db4 := step2.2
    match loadAccountContext db4 accountId with
    | .error _ => .error ⟨.internalServerError, "Account not found"⟩
    | .ok _ => .ok (⟨true, accountId, newSession.sessionId⟩, db4)

/-- The database with every account of a given id removed: the state an
observer cannot tell apart from a foreign account under the ownership
scoping. -/
def dbWithoutAccount (db : Db) (accountId : String) : Db :=
  { db with accounts := db.accounts.filter (fun r => r.id != accountId) }

/-- Concrete database for exercising the switch on a protected account:
user u1 owns a plain account acctA (the active one, bound to session
sess1) and a protected account acctT. -/
def c1Db : Db :=
  ⟨[⟨"acctA", "u1", [], none, false, none⟩,
    ⟨"acctT", "u1", [], none, true, none⟩],
   [⟨"sess1", "u1", "acctA", 0, 86400000, 0⟩],
   [], [], [], [], []⟩

/-- Concrete database holding only a foreign account: account aX belongs
to user u2, and user u1 is the caller. -/
def c4Db : Db :=
  ⟨[⟨"aX", "u2", [], none, false, none⟩], [], [], [], [], [], []⟩

/-- Concrete database with one expired session. -/
def c5DbExpired : Db :=
  ⟨[], [⟨"s1", "u1", "a1", 0, 5, 0⟩], [], [], [], [], []⟩

/-- Concrete database with one live session. -/
def c5DbLive : Db :=
  ⟨[], [⟨"s2", "u1", "a1", 0, 999, 0⟩], [], [], [], [], []⟩

/-! ## Theorems -/

/-- Filtering for rows matching a key after filtering them out yields
nothing. -/
theorem filter_eq_after_filter_ne {α : Type} (f : α → String) (k : String)
    (l : List α) :
    (l.filter (fun r => f r != k)).filter (fun r => f r == k) = [] := by
  rw [List.filter_filter]
  apply List.filter_eq_nil_iff.2
  intro a _
  by_cases h : f a = k <;> simp [h]

/-- A conjunction-scoped ownership filter is empty once all rows with the
given id are filtered away. -/
theorem scoped_filter_of_absent (l : List AccountRow) (u aid : String) :
    ((l.filter (fun r => r.id != aid)).filter
      (fun r => r.id == aid && r.userId == u)) = [] := by
  rw [List.filter_filter]
  apply List.filter_eq_nil_iff.2
  intro a _
  by_cases h : a.id = aid <;> simp [h]

/-- The ownership-scoped account query is empty when every row carrying
the requested id belongs to another user. -/
theorem scoped_filter_of_foreign (l : List AccountRow) (u aid : String)
    (h : ∀ r ∈ l, r.id = aid → r.userId ≠ u) :
    l.filter (fun r => r.id == aid && r.userId == u) = [] := by
  apply List.filter_eq_nil_iff.2
  intro a ha
  by_cases h1 : a.id = aid
  · have h2 := h a ha h1
    simp [h1, h2]
  · simp [h1]

/-- Removing rows of a foreign id does not change the caller-scoped
listing. -/
theorem user_filter_drop_foreign (l : List AccountRow) (u aid : String)
    (h : ∀ r ∈ l, r.id = aid → r.userId ≠ u) :
    (l.filter (fun r => r.id != aid)).filter (fun r => r.userId == u) =
      l.filter (fun r => r.userId == u) := by
  rw [List.filter_filter]
  induction l with
  | nil => rfl
  | cons a t ih =>
    have ht : ∀ r ∈ t, r.id = aid → r.userId ≠ u := by
      intro r hr
      exact h r (List.mem_cons_of_mem a hr)
    by_cases h1 : a.userId = u
    · have h2 : a.id ≠ aid := by
        intro h3
        exact h a (List.mem_cons_self a t) h3 h1
      simp [h1, h2, ih ht]
    · simp [h1, ih ht]

/-- C8: for every authenticated context whose user is not an admin,
running an admin-only procedure fails with the Forbidden error carrying
the not-admin message, whatever the wrapped operation is (so the wrapped
operation is never executed); for an admin user the call proceeds to the
wrapped operation. -/
theorem adminProcedure_enforces_admin_role {α : Type} (ctx : TrpcContext)
    (u : User) (h : ctx.user = some u) :
    (u.role ≠ "admin" →
      ∀ handler : TrpcContext → α,
        runAdminProcedure ctx handler =
          .error ⟨.forbidden, NOT_ADMIN_ERR_MSG⟩) ∧
    (u.role = "admin" →
      ∀ handler : TrpcContext → α,
        runAdminProcedure ctx handler = .ok (handler ctx)) := by
  constructor
  · intro hrole handler
    simp [runAdminProcedure, h, hrole]
  · intro hrole handler
    simp [runAdminProcedure, h, hrole]

/-- Witness for C8 at a concrete non-admin and a concrete admin context. -/
theorem adminProcedure_enforces_admin_role_witness :
    runAdminProcedure ⟨some ⟨1, "user"⟩⟩ (fun _ => (7 : Nat)) =
      .error ⟨.forbidden, NOT_ADMIN_ERR_MSG⟩ ∧
    runAdminProcedure ⟨some ⟨2, "admin"⟩⟩ (fun _ => (7 : Nat)) = .ok 7 := by
  constructor
  · exact (adminProcedure_enforces_admin_role ⟨some ⟨1, "user"⟩⟩ ⟨1, "user"⟩
      rfl).1 (by decide) _
  · exact (adminProcedure_enforces_admin_role ⟨some ⟨2, "admin"⟩⟩ ⟨2, "admin"⟩
      rfl).2 rfl _

/-- C9: auth.me returns exactly the user stored in the request context
when one is present, and returns null without throwing when the context
user is null. -/
theorem authMe_returns_context_user (ctx : TrpcContext) :
    (∀ u : User, ctx.user = some u → authMe ctx = .ok (some u)) ∧
    (ctx.user = none → authMe ctx = .ok none) := by
  constructor
  · intro u h
    simp [authMe, h]
  · intro h
    simp [authMe, h]

/-- Witness for C9 at a concrete authenticated and a concrete
unauthenticated context. -/
theorem authMe_returns_context_user_witness :
    authMe ⟨some ⟨3, "user"⟩⟩ = .ok (some ⟨3, "user"⟩) ∧
    authMe ⟨none⟩ = .ok none := by
  constructor
  · exact (authMe_returns_context_user ⟨some ⟨3, "user"⟩⟩).1 ⟨3, "user"⟩ rfl
  · exact (authMe_returns_context_user ⟨none⟩).2 rfl

/-- C10: for a payload whose trimmed title and content are non-empty and
within the length limits, with the service URL and API key configured,
notifyOwner sends the trimmed title and content to the SendNotification
endpoint and returns true exactly when the response is ok; a non-ok
response or a rejected fetch yields false rather than an exception. -/
theorem notifyOwner_sends_trimmed_and_reports_outcome
    (p : NotificationPayload) (url apiKey : String)
    (ht : (jsTrim p.title).length ≠ 0)
    (hc : (jsTrim p.content).length ≠ 0)
    (htl : (jsTrim p.title).length ≤ 1200)
    (hcl : (jsTrim p.content).length ≤ 20000) :
    (∀ ok : Bool,
      notifyOwner ⟨some url, some apiKey⟩ (.success ok) p =
        .ok (some ⟨url ++ "/webdevtoken.v1.WebDevService/SendNotification",
                   jsTrim p.title, jsTrim p.content⟩, ok)) ∧
    notifyOwner ⟨some url, some apiKey⟩ .networkError p =
      .ok (some ⟨url ++ "/webdevtoken.v1.WebDevService/SendNotification",
                 jsTrim p.title, jsTrim p.content⟩, false) := by
  have h1 : ¬(1200 < (jsTrim p.title).length) := by omega
  have h2 : ¬(20000 < (jsTrim p.content).length) := by omega
  constructor
  · intro ok
    simp [notifyOwner, ht, hc, gt_iff_lt, h1, h2]
  · simp [notifyOwner, ht, hc, gt_iff_lt, h1, h2]

/-- Witness for C10 at a concrete padded payload and configured
environment, exercising the ok and the rejected-fetch outcomes. -/
theorem notifyOwner_sends_trimmed_witness :
    notifyOwner ⟨some "https://example.com", some "test-api-key"⟩
        (.success true) ⟨"  Test Title  ", "  Test Content  "⟩ =
      .ok (some ⟨"https://example.com/webdevtoken.v1.WebDevService/SendNotification",
                 "Test Title", "Test Content"⟩, true) ∧
    notifyOwner ⟨some "https://example.com", some "test-api-key"⟩
        .networkError ⟨"  Test Title  ", "  Test Content  "⟩ =
      .ok (some ⟨"https://example.com/webdevtoken.v1.WebDevService/SendNotification",
                 "Test Title", "Test Content"⟩, false) := by
  have h := notifyOwner_sends_trimmed_and_reports_outcome
    ⟨"  Test Title  ", "  Test Content  "⟩ "https://example.com" "test-api-key"
    (by decide) (by decide) (by decide) (by decide)
  exact ⟨h.1 true, h.2⟩

/-- C6: the session cookie options are HTTP-only with path slash, and the
secure flag is set exactly when the request protocol is https or the
x-forwarded-proto header, split on commas with entries trimmed and
lowercased, contains https. -/
theorem getSessionCookieOptions_secure_iff_https (req : Req) :
    (getSessionCookieOptions req).httpOnly = true ∧
    (getSessionCookieOptions req).path = "/" ∧
    ((getSessionCookieOptions req).secure = true ↔ requestIsHttps req) := by
  refine ⟨rfl, rfl, ?_⟩
  simp [getSessionCookieOptions, requestIsHttps, List.any_eq_true]

/-- C7: the session cookie options carry sameSite none on every request —
not a cross-site-restricting value — exactly as pinned by the repository
cookie test expecting sameSite none alongside httpOnly true and path
slash. -/
theorem sessionCookie_sameSite_is_none (req : Req) :
    (getSessionCookieOptions req).sameSite = "none" ∧
    (getSessionCookieOptions req).sameSite ≠ "strict" ∧
    (getSessionCookieOptions req).sameSite ≠ "lax" ∧
    getSessionCookieOptions ⟨"http", .missing⟩ = ⟨true, "/", "none", false⟩ := by
  refine ⟨rfl, by simp [getSessionCookieOptions], by simp [getSessionCookieOptions], by decide⟩

/-- C5: when the stored session matching the id has passed its expiry,
validate yields the same null result as for a session that does not exist
and deletes the expired record; a session whose expiry has not passed is
returned with its activity refreshed. -/
theorem validateSession_expired_equals_missing (now : Nat) (db : Db)
    (sessionId : String) (s : SessionRow)
    (hs : (db.sessions.filter (fun r => r.id == sessionId)).head? = some s) :
    (s.expiresAt < now →
      (validateSession now db sessionId).1 = none ∧
      (validateSession now db sessionId).1 =
        (validateSession now
          { db with sessions := db.sessions.filter (fun r => r.id != sessionId) }
          sessionId).1 ∧
      ((validateSession now db sessionId).2.sessions.filter
        (fun r => r.id == sessionId)) = []) ∧
    (¬ s.expiresAt < now →
      (validateSession now db sessionId).1 =
        some ⟨s.id, s.userId, s.accountId, s.createdAt, s.expiresAt, now,
              [], [], []⟩) := by
  constructor
  · intro hexp
    have habsent :
        (validateSession now
          { db with sessions := db.sessions.filter (fun r => r.id != sessionId) }
          sessionId).1 = none := by
      simp [validateSession, filter_eq_after_filter_ne (fun r : SessionRow => r.id)]
    refine ⟨?_, ?_, ?_⟩
    · simp [validateSession, hs, hexp]
    · rw [habsent]
      simp [validateSession, hs, hexp]
    · simp [validateSession, hs, hexp,
        filter_eq_after_filter_ne (fun r : SessionRow => r.id)]
  · intro hexp
    simp [validateSession, hs, hexp]

/-- Witness for C5 at a concrete expired and a concrete live session. -/
theorem validateSession_expired_equals_missing_witness :
    (validateSession 100 c5DbExpired "s1").1 = none ∧
    ((validateSession 100 c5DbExpired "s1").2.sessions.filter
      (fun r => r.id == "s1")) = [] ∧
    (validateSession 100 c5DbLive "s2").1 =
      some ⟨"s2", "u1", "a1", 0, 999, 100, [], [], []⟩ := by
  have h1 := validateSession_expired_equals_missing 100 c5DbExpired "s1"
    ⟨"s1", "u1", "a1", 0, 5, 0⟩ (by decide)
  have h2 := validateSession_expired_equals_missing 100 c5DbLive "s2"
    ⟨"s2", "u1", "a1", 0, 999, 0⟩ (by decide)
  exact ⟨(h1.1 (by decide)).1, (h1.1 (by decide)).2.2, h2.2 (by decide)⟩

/-- C4: every account store operation scoped by the calling user — get,
list, update, delete, and the switch consuming them — reports an account
owned by another user with the NotFound error, never Forbidden, and its
result is identical to the result on a database where no account with
that id exists at all. -/
theorem accountStore_foreign_is_notFound {μ : Type} (A : AEAD)
    (P : μ → String → Nat → List Nat) (mk : μ) (db : Db)
    (u aid : String) (now : Nat) (freshId sid : String)
    (patch : AccountRow → AccountRow)
    (_hexists : ∃ r ∈ db.accounts, r.id = aid ∧ r.userId ≠ u)
    (hforeign : ∀ r ∈ db.accounts, r.id = aid → r.userId ≠ u) :
    getAccount A P mk db u aid = .error .notFound ∧
    getAccount A P mk db u aid = getAccount A P mk (dbWithoutAccount db aid) u aid ∧
    deleteAccount db u aid = .error .notFound ∧
    deleteAccount db u aid = deleteAccount (dbWithoutAccount db aid) u aid ∧
    updateAccount db u aid patch = .error .notFound ∧
    updateAccount db u aid patch =
      updateAccount (dbWithoutAccount db aid) u aid patch ∧
    accountSwitch now freshId db ⟨u, sid⟩ aid =
      .error ⟨.notFound, "Account not found"⟩ ∧
    accountSwitch now freshId db ⟨u, sid⟩ aid =
      accountSwitch now freshId (dbWithoutAccount db aid) ⟨u, sid⟩ aid ∧
    listAccounts db u = listAccounts (dbWithoutAccount db aid) u ∧
    (∀ r ∈ listAccounts db u, r.id ≠ aid) ∧
    AppError.notFound ≠ AppError.forbidden := by
  have hnil := scoped_filter_of_foreign db.accounts u aid hforeign
  have hnil2 := scoped_filter_of_absent db.accounts u aid
  refine ⟨?_, ?_, ?_, ?_, ?_, ?_, ?_, ?_, ?_, ?_, by decide⟩
  · simp [getAccount, hnil]
  · simp [getAccount, dbWithoutAccount, hnil, hnil2]
  · simp [deleteAccount, hnil]
  · simp [deleteAccount, dbWithoutAccount, hnil, hnil2]
  · simp [updateAccount, hnil]
  · simp [updateAccount, dbWithoutAccount, hnil, hnil2]
  · simp [accountSwitch, hnil]
  · simp [accountSwitch, dbWithoutAccount, hnil, hnil2]
  · simp [listAccounts, dbWithoutAccount,
      user_filter_drop_foreign db.accounts u aid hforeign]
  · intro r hr h1
    have h2 : r ∈ db.accounts ∧ r.userId = u := by
      have := List.mem_filter.1 hr
      simpa using this
    exact hforeign r h2.1 h1 h2.2

/-- Witness for C4 at a concrete database holding only an account of
another user. -/
theorem accountStore_foreign_is_notFound_witness :
    getAccount toyAead (fun (_ : Unit) (_ : String) (_ : Nat) => ([] : List Nat))
      () c4Db "u1" "aX" = .error .notFound ∧
    accountSwitch 0 "f1" c4Db ⟨"u1", "sX"⟩ "aX" =
      .error ⟨.notFound, "Account not found"⟩ := by
  have h := accountStore_foreign_is_notFound toyAead
    (fun (_ : Unit) (_ : String) (_ : Nat) => ([] : List Nat)) () c4Db
    "u1" "aX" 0 "f1" "sX" id
    ⟨⟨"aX", "u2", [], none, false, none⟩, by decide, rfl, by decide⟩
    (by decide)
  exact ⟨h.1, h.2.2.2.2.2.2.1⟩

/-- C1 (divergence witness): switching to a protected account with no
verification token — the input schema has no such field — does not return
Forbidden: it completes the switch, returning success with a fresh
session for the protected account, and tears the previously active
session down (the saving, clearing and loading stages all run). -/
theorem switch_to_protected_without_token_succeeds :
    ((c1Db.accounts.filter (fun r => r.id == "acctT")).all
      (fun r => r.isProtected)) = true ∧
    accountSwitch 10 "sess2" c1Db ⟨"u1", "sess1"⟩ "acctT" =
      .ok (⟨true, "acctT", "sess2"⟩,
        { c1Db with sessions := [⟨"sess2", "u1", "acctT", 10, 86400010, 10⟩] }) ∧
    (accountSwitch 10 "sess2" c1Db ⟨"u1", "sess1"⟩ "acctT").toOption.map
      (fun r => r.2.sessions.filter (fun s => s.id == "sess1")) = some [] := by
  refine ⟨rfl, rfl, rfl⟩

/-- C3: key derivation is a pure function of the master key and scope, and
whenever the key-derivation primitive separates distinct salts (the PRF
behaviour of PBKDF2), two accounts of one user receive different keys
because their salts differ. -/
theorem deriveAccountKey_deterministic_and_distinguishing
    {μ κ : Type} (P : μ → String → Nat → κ) (mk : μ) (u a b : String)
    (hinj : ∀ s1 s2 : String, s1 ≠ s2 → P mk s1 100000 ≠ P mk s2 100000)
    (hab : a ≠ b) :
    deriveAccountKey P mk u a = deriveAccountKey P mk u a ∧
    deriveAccountKey P mk u a ≠ deriveAccountKey P mk u b := by
  refine ⟨rfl, ?_⟩
  apply hinj
  intro h
  apply hab
  have h2 : (u ++ ":").data ++ a.data = (u ++ ":").data ++ b.data := by
    have h3 := congrArg String.data h
    simpa [pbkdf2Salt] using h3
  exact String.ext (List.append_cancel_left h2)

/-- Witness for C3 with an injective stand-in primitive and two concrete
account ids of one user. -/
theorem deriveAccountKey_distinguishing_witness :
    deriveAccountKey (fun (_ : Unit) (s : String) (_ : Nat) => s) () "7" "acctA" ≠
      deriveAccountKey (fun (_ : Unit) (s : String) (_ : Nat) => s) () "7" "acctB" :=
  (deriveAccountKey_deterministic_and_distinguishing
    (fun (_ : Unit) (s : String) (_ : Nat) => s) () "7" "acctA" "acctB"
    (fun _ _ h => h) (by decide)).2

/-- Decoding inverts encoding on every sextet value. -/
theorem sextet_decode : ∀ s : Nat, s < 64 → decodeChar (sextetChar s) = some s := by
  decide

/-- No sextet value encodes to the padding character. -/
theorem sextet_ne_pad : ∀ s : Nat, s < 64 → sextetChar s ≠ '=' := by
  decide

/-- Base64 decoding inverts base64 encoding on byte lists. -/
theorem base64_roundtrip : ∀ l : List Nat, (∀ b ∈ l, b < 256) →
    base64Decode (base64Encode l) = some l
  | [] => fun _ => rfl
  | [a] => fun h => by
    have ha : a < 256 := h a (by simp)
    have h1 := sextet_decode (a / 4) (by omega)
    have h2 := sextet_decode (a % 4 * 16) (by omega)
    simp [base64Encode, base64Decode, h1, h2]
    omega
  | [a, b] => fun h => by
    have ha : a < 256 := h a (by simp)
    have hb : b < 256 := h b (by simp)
    have h1 := sextet_decode (a / 4) (by omega)
    have h2 := sextet_decode (a % 4 * 16 + b / 16) (by omega)
    have h3 := sextet_decode (b % 16 * 4) (by omega)
    have hne := sextet_ne_pad (b % 16 * 4) (by omega)
    simp [base64Encode, base64Decode, h1, h2, h3, hne]
    constructor <;> omega
  | a :: b :: c :: rest => fun h => by
    have ha : a < 256 := h a (by simp)
    have hb : b < 256 := h b (by simp)
    have hc : c < 256 := h c (by simp)
    have ih := base64_roundtrip rest (fun x hx => h x (by simp [List.mem_cons, hx]))
    have h1 := sextet_decode (a / 4) (by omega)
    have h2 := sextet_decode (a % 4 * 16 + b / 16) (by omega)
    have h3 := sextet_decode (b % 16 * 4 + c / 64) (by omega)
    have h4 := sextet_decode (c % 64) (by omega)
    have hne3 := sextet_ne_pad (b % 16 * 4 + c / 64) (by omega)
    have hne4 := sextet_ne_pad (c % 64) (by omega)
    simp [base64Encode, base64Decode, h1, h2, h3, h4, hne3, hne4, ih]
    refine ⟨?_, ?_, ?_⟩ <;> omega

/-- C2: for every plaintext, key and 12-byte nonce choice, decrypting an
encryption under the same key recovers the plaintext, and decrypting
under a different key fails with the DecryptionFailed error — distinct
from the not-found error — whenever the underlying authenticated cipher
is correct and rejects the wrong key on these inputs (the AES-GCM
guarantees the code relies on). -/
theorem encryptData_decryptData_roundtrip (A : AEAD) (iv k1 k2 p : List Nat)
    (hlen : iv.length = 12)
    (hivb : ∀ b ∈ iv, b < 256)
    (hencb : ∀ b ∈ A.enc iv k1 p, b < 256)
    (_hkeys : k1 ≠ k2)
    (hcorrect : A.dec iv k1 (A.enc iv k1 p) = some p)
    (hauth : A.dec iv k2 (A.enc iv k1 p) = none) :
    decryptData A k1 (encryptData A iv k1 p) = .ok p ∧
    decryptData A k2 (encryptData A iv k1 p) = .error .decryptionFailed ∧
    AppError.decryptionFailed ≠ AppError.notFound := by
  have hbytes : ∀ b ∈ iv ++ A.enc iv k1 p, b < 256 := by
    intro b hb
    rcases List.mem_append.1 hb with h | h
    · exact hivb b h
    · exact hencb b h
  have hrt := base64_roundtrip (iv ++ A.enc iv k1 p) hbytes
  have htake : (iv ++ A.enc iv k1 p).take 12 = iv := List.take_left' hlen
  have hdrop : (iv ++ A.enc iv k1 p).drop 12 = A.enc iv k1 p := List.drop_left' hlen
  refine ⟨?_, ?_, by decide⟩
  · simp [decryptData, encryptData, hrt, htake, hdrop, hcorrect]
  · simp [decryptData, encryptData, hrt, htake, hdrop, hauth]

/-- Witness for C2 with the toy cipher, a concrete zero nonce, two
distinct concrete keys and a concrete plaintext. -/
theorem encryptData_decryptData_roundtrip_witness :
    decryptData toyAead [1]
      (encryptData toyAead (List.replicate 12 0) [1] [104, 105]) =
      .ok [104, 105] ∧
    decryptData toyAead [2]
      (encryptData toyAead (List.replicate 12 0) [1] [104, 105]) =
      .error .decryptionFailed := by
  have h := encryptData_decryptData_roundtrip toyAead (List.replicate 12 0)
    [1] [2] [104, 105] (by decide) (by decide) (by decide) (by decide)
    (by decide) (by decide)
  exact ⟨h.1, h.2.1⟩

end Incog
